import Mathlib

/-!
Shallow embedding of `avocado/job.py` (the job-execution pipeline of the
avocado test orchestrator): test resolution (`_load_test_instance`),
parameter-set building and the run controller (`_run`), the default
execution loop (`test_runner`), and the exception classifier (`run`).

External collaborator modules (`avocado.test`, `avocado.result`,
`avocado.core.status`, `avocado.core.data_dir`, `avocado.multiplex_config`,
`os.path`, `imp`) are modelled as an explicit environment: pure functions
standing for filesystem queries, module discovery, test execution outcomes
and the multiplex engine.  Side effects (result-collaborator calls, tmp-file
cleanup) are modelled as an explicit event trace.  A Python exception that
escapes a modelled function is an `Except.error` value.
-/

namespace Avocado

/-- A Parameter Set: an ordered mapping from string keys to string values
(a Python dict as produced by the builder; order is production order). -/
abbrev ParamSet := List (String × String)

/-- Exit status codes: the four terminal outcomes looked up in
`avocado.core.error_codes.numeric_status` (`AVOCADO_ALL_OK`,
`AVOCADO_TESTS_FAIL`, `AVOCADO_JOB_FAIL`, `AVOCADO_CRASH`).  The concrete
integers live in the external collaborator module, so the codes are kept
abstract here. -/
inductive ExitCode
  | ALL_OK
  | TESTS_FAIL
  | JOB_FAIL
  | CRASH
deriving DecidableEq, Repr

/-- The class resolved for a discovered/missing test instance:
either the attribute named after the url found on the loaded module
(`getattr(test_module, url)`), or `test.MissingTest`. -/
inductive TestClass
  | discovered (attrName : String)
  | missingTest
deriving DecidableEq, Repr

/-- A Test Instance as constructed by `_load_test_instance`:
`test.DropinTest(path=..., base_logdir=..., job=...)` for an existing
filesystem path (note: no params argument), or
`test_class(name=url, base_logdir=..., params=..., job=...)` for the
discovered / missing variants.  The owning Job is carried as its
`unique_id`. -/
inductive TestInstance
  | dropin (path : String) (base_logdir : String) (jobId : String)
  | loaded (cls : TestClass) (name : String) (base_logdir : String)
      (params : ParamSet) (jobId : String)
deriving DecidableEq, Repr

/-- The name a constructed test instance carries (the path for the
drop-in variant, the url for the others). -/
def TestInstance.name : TestInstance → String
  | .dropin path _ _ => path
  | .loaded _ n _ _ _ => n

/-- Outcome of the discovery `try`-block body for a given url:
`found cls` — `imp.find_module`, `imp.load_module` and
`getattr(test_module, url)` all succeeded; `importError` — an
`ImportError` was raised (missing directory, missing module, or a
failed import raising `ImportError`); `raises excClass` — an exception that is
not an `ImportError` was raised (e.g. `AttributeError` from `getattr`
when the module lacks the attribute). -/
inductive Discovery
  | found (cls : String)
  | importError
  | raises (excClass : String)
deriving DecidableEq, Repr

/-- The external environment of one job run: `os.path` queries, module
discovery outcome per url, the test execution contract
(`run_avocado` leaves a final `status` on the instance), the external
status→bool table `avocado.core.status.mapping`, and the multiplex
engine (`Parser(mfile).only_filter(url); get_dicts()` and the unfiltered
`Parser(mfile).get_dicts()`). -/
structure Env where
  abspath : String → String
  pathExists : String → Bool
  discover : String → Discovery
  runStatus : TestInstance → String
  mapping : String → Bool
  only_dicts : String → String → List ParamSet
  all_dicts : String → List ParamSet

/-- Invocation configuration (`argparse.Namespace` fields read by `Job`):
`unique_id`, `log_level`, `multiplex_file`, `url`, `keep_tmp_files`.
The optional `test_runner` / `test_result` override attributes are absent,
as on the stock CLI namespace, so `_make_test_runner` / `_make_test_result`
select the built-in implementations. -/
structure Args where
  unique_id : Option String
  log_level : Option Nat
  multiplex_file : Option String
  url : Option String
  keep_tmp_files : Bool
deriving DecidableEq, Repr

/-- The Job state relevant to the claims: the constructor arguments kept
on `self` plus the lifecycle `status` string. -/
structure Job where
  args : Option Args
  unique_id : String
  debugdir : String
  multiplex_file : Option String
  status : String
deriving DecidableEq, Repr

/-- Job construction (`Job.__init__`): `unique_id` comes from
`args.unique_id or str(uuid.uuid4())` (a falsy value selects the fresh
uuid), `debugdir` from `data_dir.get_job_logs_dir(args)`, and `status`
starts as `"RUNNING"`. -/
def Job.init (freshUuid : String) (logsDir : String) (args : Option Args) : Job :=
  { args := args
    unique_id :=
      match args with
      | some a =>
          match a.unique_id with
          | some s => if s = "" then freshUuid else s
          | none => freshUuid
      | none => freshUuid
    debugdir := logsDir
    multiplex_file :=
      match args with
      | some a => a.multiplex_file
      | none => none
    status := "RUNNING" }

/-- The identifier prefix used for resolution:
`shortname.split('.')[0]`, i.e. the characters of the shortname before
its first `.` (the whole shortname when it has no dot, empty when it
starts with one). -/
def urlOf (shortname : String) : String :=
  String.mk (shortname.data.takeWhile (fun c => c ≠ '.'))

/-- Embedding of `Job._load_test_instance`.  `params.get('shortname')`
returning `None` makes the subsequent `.split('.')` raise
`AttributeError`.  The url is the component of the shortname before the
first `.`.  If `os.path.abspath(url)` exists, a `DropinTest` is built from
the path alone.  Otherwise the discovery `try`-block runs: only
`ImportError` is caught (selecting `test.MissingTest`); any other
exception propagates out of the method (the `finally` block then fails on
the unbound `test_class`, which still propagates an exception). -/
def _load_test_instance (env : Env) (j : Job) (params : ParamSet) :
    Except String TestInstance :=
  match List.lookup "shortname" params with
  | none => .error "AttributeError"
  | some shortname =>
    let url := urlOf shortname
    let path_attempt := env.abspath url
    if env.pathExists path_attempt then
      .ok (.dropin path_attempt j.debugdir j.unique_id)
    else
      match env.discover url with
      | .found cls =>
          .ok (.loaded (.discovered cls) url j.debugdir params j.unique_id)
      | .importError =>
          .ok (.loaded .missingTest url j.debugdir params j.unique_id)
      | .raises excClass => .error excClass

/-- Embedding of `Job.run_test`: resolve the instance and execute its
`run_avocado` contract; the pair carries the finished instance and the
final `status` the run left on it. -/
def run_test (env : Env) (j : Job) (params : ParamSet) :
    Except String (TestInstance × String) :=
  (_load_test_instance env j params).map (fun ti => (ti, env.runStatus ti))

/-- Observable side effects of the run, in order: the result
collaborator's lifecycle calls (`start_tests`, `check_test` with the
finished instance — represented by its name and final status — and
`end_tests`), the execution of one test's `run_avocado`, and
`data_dir.clean_tmp_files()`. -/
inductive Event
  | startTests
  | runTest (name : String)
  | checkTest (name : String) (finalStatus : String)
  | endTests
  | cleanTmpFiles
deriving DecidableEq, Repr

/-- The body of the `for params in params_list` loop of `Job.test_runner`:
each test is resolved and run, `check_test` is called with the finished
instance, and the instance's name is appended to `failures` when
`status.mapping[status]` is false.  An exception from `run_test` aborts
the loop (and the trace) at that point. -/
def runner_loop (env : Env) (j : Job) :
    List ParamSet → List Event × Except String (List String)
  | [] => ([], .ok [])
  | params :: rest =>
    match run_test env j params with
    | .error e => ([], .error e)
    | .ok (ti, st) =>
      let res := runner_loop env j rest
      (.runTest ti.name :: .checkTest ti.name st :: res.1,
       res.2.map (fun fs => if env.mapping st then fs else ti.name :: fs))

/-- Embedding of `Job.test_runner`: `start_tests` before the loop,
`end_tests` after it (so `end_tests` is not reached when a test raises),
returning the list of failing test names in execution order. -/
def test_runner (env : Env) (j : Job) (params_list : List ParamSet) :
    List Event × Except String (List String) :=
  let res := runner_loop env j params_list
  match res.2 with
  | .error e => (.startTests :: res.1, .error e)
  | .ok failures => (.startTests :: res.1 ++ [.endTests], .ok failures)

/-- The `urls` argument of `Job._run` / `Job.run`: Python accepts `None`,
a whitespace-separated string, or an already-split list. -/
inductive UrlsArg
  | none
  | str (s : String)
  | list (l : List String)
deriving DecidableEq, Repr

/-- Python `str.split()` with no argument: split on runs of whitespace,
producing no empty pieces. -/
def pySplit (s : String) : List String :=
  (s.split Char.isWhitespace).filter (fun piece => piece ≠ "")

/-- The urls normalization at the top of `Job._run`: an explicit string is
split; when the argument is `None` the configured `args.url` (if any) is
split; otherwise urls stays `None`. -/
def normalize_urls (j : Job) : UrlsArg → Option (List String)
  | .none =>
    match j.args with
    | some a => a.url.map pySplit
    | none => Option.none
  | .str s => some (pySplit s)
  | .list l => some l

/-- The multiplex-file normalization of `Job._run`: an explicit argument
is made absolute; when absent the configured `args.multiplex_file` (if
any) is made absolute; otherwise it stays `None`. -/
def normalize_mux (env : Env) (j : Job) : Option String → Option String
  | Option.none =>
    match j.args with
    | some a => a.multiplex_file.map env.abspath
    | none => Option.none
  | some m => some (env.abspath m)

/-- The parameter-set list `Job._run` hands to the runner: with no
multiplex file, one `{'shortname': url}` per url; with a multiplex file
and urls, the Python loop appends for each url either all of that url's
filtered dicts or the bare set when there are none; with a multiplex file
and no urls, every dict the engine produces globally. -/
def build_params_list (env : Env) (j : Job) (urlsArg : UrlsArg)
    (muxArg : Option String) : List ParamSet :=
  let urls := normalize_urls j urlsArg
  let params_list0 :=
    match urls with
    | some us => us.map (fun url => [("shortname", url)])
    | none => []
  match normalize_mux env j muxArg with
  | some mfile =>
    match urls with
    | some us =>
      us.foldl
        (fun acc url =>
          let dcts := env.only_dicts mfile url
          if dcts.isEmpty then acc ++ [[("shortname", url)]] else acc ++ dcts)
        []
    | none => env.all_dicts mfile
  | none => params_list0

/-- Embedding of `Job._run`: build the parameter sets, run them through
the (built-in) runner, then — only when no exception escaped the loop —
promote a still-`RUNNING` status to `PASS`, clean temporary files unless
`args` is absent or `keep_tmp_files` is set, and translate the failures
list into `AVOCADO_ALL_OK` / `AVOCADO_TESTS_FAIL`.  An exception from the
loop propagates with the job state untouched and no cleanup. -/
def Job._run (env : Env) (j : Job) (urlsArg : UrlsArg)
    (muxArg : Option String) : Job × List Event × Except String ExitCode :=
  let params_list := build_params_list env j urlsArg muxArg
  let res := test_runner env j params_list
  match res.2 with
  | .error e => (j, res.1, .error e)
  | .ok failures =>
    let j2 := if j.status = "RUNNING" then { j with status := "PASS" } else j
    let cleanup :=
      match j.args with
      | some a => !a.keep_tmp_files
      | none => false
    let evs2 := res.1 ++ (if cleanup then [Event.cleanTmpFiles] else [])
    if failures.isEmpty then (j2, evs2, .ok ExitCode.ALL_OK)
    else (j2, evs2, .ok ExitCode.TESTS_FAIL)

/-- The issue tracker link `_NEW_ISSUE_LINK` of `job.py`. -/
def newIssueLink : String :=
  "https://github.com/avocado-framework/avocado/issues/new"

/-- An exception escaping `Job._run`, as seen by the two `except` tiers of
`Job.run`: a `JobBaseException` carries its own target status and
description (`str(details)`); any other exception carries its class name,
message, and the traceback lines `traceback.format_exception` yields from
`exc_traceback.tb_next` on (the classifier's own frame excluded). -/
inductive PyException
  | jobBase (clsName : String) (failStatus : String) (descr : String)
  | other (clsName : String) (msg : String) (tbLines : List String)
deriving DecidableEq, Repr

/-- Diagnostic output of `Job.run`: `output_manager.log_fail_header` and
`output_manager.error` calls, in order. -/
inductive Msg
  | failHeader (s : String)
  | errorLine (s : String)
deriving DecidableEq, Repr

/-- The exception-classification tiers of `Job.run`, applied to the
outcome of the wrapped `self._run(urls, multiplex_file)` call: a normal
return passes through; a `JobBaseException` sets the job status from the
failure, logs one failure header, and returns `AVOCADO_JOB_FAIL`; any
other exception sets status `ERROR`, logs a crash header, every captured
traceback line, the bug-report instruction and the issue-tracker link,
and returns `AVOCADO_CRASH`.  Every branch returns, so `run` never
raises. -/
def Job.classify (j : Job) : Except PyException ExitCode →
    Job × List Msg × ExitCode
  | .ok code => (j, [], code)
  | .error (.jobBase clsName failStatus descr) =>
    ({ j with status := failStatus },
     [.failHeader ("Avocado job failed: " ++ clsName ++ ": " ++ descr)],
     ExitCode.JOB_FAIL)
  | .error (.other clsName msg tbLines) =>
    ({ j with status := "ERROR" },
     .failHeader ("Avocado crashed: " ++ clsName ++ ": " ++ msg) ::
       tbLines.map .errorLine ++
       [.failHeader
          "Please include the traceback info and command line used on your bug report",
        .failHeader ("Report bugs visiting " ++ newIssueLink)],
     ExitCode.CRASH)

/-! Concrete fixtures used to instantiate the theorems below. -/

/-- A job built with `args=None`: fresh uuid, status `"RUNNING"`. -/
def jsample : Job := Job.init "a1b2c3d4" "/tmp/avocado-logs/job-01" Option.none

/-- An environment where no filesystem path exists and discovery finds the
module but not the attribute, so the `try`-block raises `AttributeError`. -/
def envAttrErr : Env :=
  { abspath := fun s => "/abs/" ++ s
    pathExists := fun _ => false
    discover := fun _ => .raises "AttributeError"
    runStatus := fun _ => "PASS"
    mapping := fun st => st = "PASS"
    only_dicts := fun _ _ => []
    all_dicts := fun _ => [] }

/-- An environment where discovery raises `ImportError` for every url. -/
def envImportErr : Env := { envAttrErr with discover := fun _ => .importError }

/-- An environment where the identifier both exists as a filesystem path
and is discoverable as a module. -/
def envPathAndModule : Env :=
  { envAttrErr with
      pathExists := fun _ => true
      discover := fun u => .found u }

/-- C1, counterexample.  The claim says the resolver never raises for a
well-formed parameter set whose identifier is not a path, falling back to
the Missing-test instance on a missing attribute among other failures.
In the code only `ImportError` is caught, so a discovery failure that is
an `AttributeError` (module found, attribute named after the url absent)
propagates out of `_load_test_instance` instead of producing a test
instance. -/
theorem C1_counterexample :
    List.lookup "shortname" [("shortname", "sleeptest")] = some "sleeptest" ∧
    envAttrErr.pathExists (envAttrErr.abspath "sleeptest") = false ∧
    _load_test_instance envAttrErr jsample [("shortname", "sleeptest")] =
      Except.error "AttributeError" := by
  refine ⟨by decide, rfl, rfl⟩

/-- C1, amended.  For a well-formed parameter set (containing
`shortname`) whose identifier prefix does not exist as a filesystem path:
when discovery fails with `ImportError` (missing directory, missing
module, failed import) the resolver returns exactly one Missing-test
instance built with the prefix as name, the job's log directory, the full
parameter set and the owning job; when discovery succeeds it returns
exactly one discovered instance; but a discovery failure that is not an
`ImportError` (e.g. the `AttributeError` of a missing attribute) is not
caught and propagates. -/
theorem C1_fallback_on_import_error (env : Env) (j : Job) (params : ParamSet)
    (s : String) (hs : List.lookup "shortname" params = some s)
    (hp : env.pathExists (env.abspath (urlOf s)) = false) :
    (env.discover (urlOf s) = Discovery.importError →
      _load_test_instance env j params =
        Except.ok (TestInstance.loaded TestClass.missingTest
          (urlOf s) j.debugdir params j.unique_id)) ∧
    (∀ cls, env.discover (urlOf s) = Discovery.found cls →
      _load_test_instance env j params =
        Except.ok (TestInstance.loaded (TestClass.discovered cls)
          (urlOf s) j.debugdir params j.unique_id)) ∧
    (∀ excClass,
      env.discover (urlOf s) = Discovery.raises excClass →
      _load_test_instance env j params = Except.error excClass) := by
  refine ⟨fun hd => ?_, fun cls hd => ?_, fun excClass hd => ?_⟩ <;>
    simp [_load_test_instance, hs, hp, hd]

/-- C1, witness for the amended theorem at a concrete environment and
parameter set. -/
theorem C1_fallback_witness :
    _load_test_instance envImportErr jsample [("shortname", "sleeptest")] =
      Except.ok (TestInstance.loaded TestClass.missingTest "sleeptest"
        jsample.debugdir [("shortname", "sleeptest")] jsample.unique_id) := by
  exact (C1_fallback_on_import_error envImportErr jsample
      [("shortname", "sleeptest")] "sleeptest" (by decide) rfl).1 rfl

/-- C7.  When the identifier prefix (the part of `shortname` before the
first `.`) exists as a filesystem path, the resolver returns the
path-based `DropinTest` runnable bound to that path — with no parameter
set attached (the `dropin` variant carries none) — for every environment,
in particular regardless of what `discover` would return for the same
name. -/
theorem C7_path_priority (env : Env) (j : Job) (params : ParamSet)
    (s : String) (hs : List.lookup "shortname" params = some s)
    (hp : env.pathExists (env.abspath (urlOf s)) = true) :
    _load_test_instance env j params =
      Except.ok (TestInstance.dropin (env.abspath (urlOf s))
        j.debugdir j.unique_id) := by
  simp [_load_test_instance, hs, hp]

/-- C7, witness: an identifier that is simultaneously an existing path
and a discoverable module resolves to the path-based runnable. -/
theorem C7_path_priority_witness :
    envPathAndModule.discover "exampletest" = Discovery.found "exampletest" ∧
    _load_test_instance envPathAndModule jsample
        [("shortname", "exampletest.variant1")] =
      Except.ok (TestInstance.dropin "/abs/exampletest"
        jsample.debugdir jsample.unique_id) := by
  refine ⟨rfl, ?_⟩
  exact C7_path_priority envPathAndModule jsample
    [("shortname", "exampletest.variant1")] "exampletest.variant1"
    (by decide) rfl

/-- C2.  `Job.run` classifies an exception escaping the wrapped `_run`.
For a `JobBaseException`: the job status becomes the failure's own status
value, exactly one failure-header message is emitted and it names the
failure class and its description, and `JOB_FAIL` is returned.  For any
other exception: the job status becomes `ERROR`, the first message is a
failure header naming the exception class and message, every captured
traceback line (the classifier's own frame was excluded at capture, via
`exc_traceback.tb_next`) is emitted as diagnostic output, the bug-report
instruction and the issue-tracker link are emitted, and `CRASH` is
returned.  `Job.classify` is a total function, so `run` itself never
raises: a normal return passes through unchanged. -/
theorem C2_failure_classifier (j : Job) (clsName failStatus descr msg : String)
    (tbLines : List String) (code : ExitCode) :
    ((Job.classify j (Except.error
        (PyException.jobBase clsName failStatus descr))).1.status = failStatus ∧
     (Job.classify j (Except.error
        (PyException.jobBase clsName failStatus descr))).2.1 =
       [Msg.failHeader ("Avocado job failed: " ++ clsName ++ ": " ++ descr)] ∧
     (Job.classify j (Except.error
        (PyException.jobBase clsName failStatus descr))).2.2 =
       ExitCode.JOB_FAIL) ∧
    ((Job.classify j (Except.error
        (PyException.other clsName msg tbLines))).1.status = "ERROR" ∧
     (Job.classify j (Except.error
        (PyException.other clsName msg tbLines))).2.1.head? =
       some (Msg.failHeader ("Avocado crashed: " ++ clsName ++ ": " ++ msg)) ∧
     (∀ line ∈ tbLines, Msg.errorLine line ∈
        (Job.classify j (Except.error
          (PyException.other clsName msg tbLines))).2.1) ∧
     Msg.failHeader
       "Please include the traceback info and command line used on your bug report" ∈
       (Job.classify j (Except.error
         (PyException.other clsName msg tbLines))).2.1 ∧
     Msg.failHeader ("Report bugs visiting " ++ newIssueLink) ∈
       (Job.classify j (Except.error
         (PyException.other clsName msg tbLines))).2.1 ∧
     (Job.classify j (Except.error
        (PyException.other clsName msg tbLines))).2.2 = ExitCode.CRASH) ∧
    Job.classify j (Except.ok code) = (j, [], code) := by
  refine ⟨⟨rfl, rfl, rfl⟩, ⟨rfl, rfl, ?_, ?_, ?_, rfl⟩, rfl⟩
  · intro line hline
    simp only [Job.classify]
    exact List.mem_cons_of_mem _
      (List.mem_append_left _ (List.mem_map_of_mem _ hline))
  · simp [Job.classify]
  · simp [Job.classify]

/-- C2, witness: at a concrete unclassified failure, the first captured
traceback line is among the diagnostic output of the classifier. -/
theorem C2_failure_classifier_witness :
    Msg.errorLine "  File job.py, line 1, in _run" ∈
      (Job.classify jsample (Except.error (PyException.other "ValueError"
        "boom" ["  File job.py, line 1, in _run"]))).2.1 :=
  (C2_failure_classifier jsample "ValueError" "FAIL" "d" "boom"
      ["  File job.py, line 1, in _run"] ExitCode.ALL_OK).2.1.2.2.1
    "  File job.py, line 1, in _run" (by simp)

/-- Helper: the runner loop emits only `runTest` / `checkTest` events,
never the cleanup event. -/
theorem cleanTmp_not_in_loop (env : Env) (j : Job) (pl : List ParamSet) :
    Event.cleanTmpFiles ∉ (runner_loop env j pl).1 := by
  induction pl with
  | nil => simp [runner_loop]
  | cons p rest ih =>
    simp only [runner_loop]
    cases hrt : run_test env j p with
    | error e => simp
    | ok r =>
      obtain ⟨ti, st⟩ := r
      intro hmem
      simp only [List.mem_cons] at hmem
      rcases hmem with h | h | h
      · exact absurd h (by simp)
      · exact absurd h (by simp)
      · exact ih h

/-- Helper: the default execution loop (`test_runner`) never emits the
cleanup event; cleanup is the controller's decision alone. -/
theorem cleanTmp_not_in_test_runner (env : Env) (j : Job)
    (pl : List ParamSet) :
    Event.cleanTmpFiles ∉ (test_runner env j pl).1 := by
  have h := cleanTmp_not_in_loop env j pl
  simp only [test_runner]
  cases hr : (runner_loop env j pl) with
  | mk evs r =>
    rw [hr] at h
    cases r <;> simp_all

/-- C3.  When the execution loop completes without an exception, `_run`
returns `ALL_OK` exactly when the failures list it produced is empty and
`TESTS_FAIL` otherwise; and the model of `_run` is a pure function of its
inputs, so rerunning with unchanged inputs and unchanged test behavior
(the same `Env`) yields the same code. -/
theorem C3_exit_code (env : Env) (j : Job) (urlsArg : UrlsArg)
    (muxArg : Option String) (evs : List Event) (failures : List String)
    (h : test_runner env j (build_params_list env j urlsArg muxArg) =
      (evs, Except.ok failures)) :
    ((Job._run env j urlsArg muxArg).2.2 = Except.ok ExitCode.ALL_OK ↔
      failures = []) ∧
    ((Job._run env j urlsArg muxArg).2.2 = Except.ok ExitCode.TESTS_FAIL ↔
      failures ≠ []) ∧
    Job._run env j urlsArg muxArg = Job._run env j urlsArg muxArg := by
  refine ⟨?_, ?_, rfl⟩ <;>
    cases failures <;> simp [Job._run, h]

/-- C3, witness: an empty parameter-set run yields `ALL_OK`. -/
theorem C3_exit_code_witness :
    (Job._run envImportErr jsample UrlsArg.none Option.none).2.2 =
      Except.ok ExitCode.ALL_OK :=
  (C3_exit_code envImportErr jsample UrlsArg.none Option.none
      [Event.startTests, Event.endTests] [] rfl).1.mpr rfl

/-- C8.  After the execution loop returns normally, the controller
promotes the job status to `PASS` exactly when it is still `RUNNING`; a
different (terminal) status set by a lower layer is left untouched, along
with the rest of the job state. -/
theorem C8_status_promotion (env : Env) (j : Job) (urlsArg : UrlsArg)
    (muxArg : Option String) (evs : List Event) (failures : List String)
    (h : test_runner env j (build_params_list env j urlsArg muxArg) =
      (evs, Except.ok failures)) :
    (j.status = "RUNNING" →
      (Job._run env j urlsArg muxArg).1 = { j with status := "PASS" }) ∧
    (j.status ≠ "RUNNING" → (Job._run env j urlsArg muxArg).1 = j) := by
  constructor <;> intro hst <;>
    cases hie : failures.isEmpty <;> simp [Job._run, h, hst, hie]

/-- C8, witness: a job whose status is still `RUNNING` ends with status
`PASS` after an empty run. -/
theorem C8_status_promotion_witness :
    (Job._run envImportErr jsample UrlsArg.none Option.none).1 =
      { jsample with status := "PASS" } :=
  (C8_status_promotion envImportErr jsample UrlsArg.none Option.none
      [Event.startTests, Event.endTests] [] rfl).1 rfl

/-- C9.  The cleanup side effect `clean_tmp_files` is never performed
when the job was built with `args = None` (on any run, successful or
not); with `args` present it is performed exactly on the non-exception
path when `keep_tmp_files` is false. -/
theorem C9_cleanup_gating (env : Env) (j : Job) (urlsArg : UrlsArg)
    (muxArg : Option String) :
    (j.args = Option.none →
      Event.cleanTmpFiles ∉ (Job._run env j urlsArg muxArg).2.1) ∧
    (∀ a, j.args = some a → a.keep_tmp_files = true →
      Event.cleanTmpFiles ∉ (Job._run env j urlsArg muxArg).2.1) ∧
    (∀ a evs failures, j.args = some a → a.keep_tmp_files = false →
      test_runner env j (build_params_list env j urlsArg muxArg) =
        (evs, Except.ok failures) →
      Event.cleanTmpFiles ∈ (Job._run env j urlsArg muxArg).2.1) := by
  have hclean := cleanTmp_not_in_test_runner env j
    (build_params_list env j urlsArg muxArg)
  refine ⟨fun hargs => ?_, fun a hargs hkeep => ?_,
    fun a evs failures hargs hkeep h => ?_⟩
  · cases htr : test_runner env j (build_params_list env j urlsArg muxArg) with
    | mk evs0 r0 =>
      rw [htr] at hclean
      cases r0 with
      | error e => simp_all [Job._run]
      | ok failures => cases failures <;> simp_all [Job._run]
  · cases htr : test_runner env j (build_params_list env j urlsArg muxArg) with
    | mk evs0 r0 =>
      rw [htr] at hclean
      cases r0 with
      | error e => simp_all [Job._run]
      | ok failures => cases failures <;> simp_all [Job._run]
  · cases failures <;> simp [Job._run, h, hargs, hkeep]

/-- C9, witness: with `args` present and `keep_tmp_files = False`, an
empty successful run performs the cleanup; the theorem is applied at a
concrete job carrying such args. -/
theorem C9_cleanup_gating_witness :
    Event.cleanTmpFiles ∈
      (Job._run envImportErr
        (Job.init "u1" "/tmp/logs"
          (some { unique_id := Option.none, log_level := Option.none,
                  multiplex_file := Option.none, url := Option.none,
                  keep_tmp_files := false }))
        UrlsArg.none Option.none).2.1 :=
  (C9_cleanup_gating envImportErr
      (Job.init "u1" "/tmp/logs"
        (some { unique_id := Option.none, log_level := Option.none,
                multiplex_file := Option.none, url := Option.none,
                keep_tmp_files := false }))
      UrlsArg.none Option.none).2.2
    { unique_id := Option.none, log_level := Option.none,
      multiplex_file := Option.none, url := Option.none,
      keep_tmp_files := false }
    [Event.startTests, Event.endTests] [] rfl rfl rfl

/-- C4.  With no multiplex source, the builder maps each identifier to
the bare parameter set `{'shortname': identifier}`, in input order and
with the same length as the input list. -/
theorem C4_bare_param_sets (env : Env) (j : Job) (us : List String)
    (h : normalize_mux env j Option.none = Option.none) :
    build_params_list env j (UrlsArg.list us) Option.none =
      us.map (fun url => [("shortname", url)]) ∧
    (build_params_list env j (UrlsArg.list us) Option.none).length =
      us.length := by
  refine ⟨?_, ?_⟩ <;> simp [build_params_list, normalize_urls, h]

/-- C4, witness at a concrete two-identifier list and a job configured
with no multiplex file. -/
theorem C4_bare_param_sets_witness :
    build_params_list envImportErr jsample
        (UrlsArg.list ["sleeptest", "failtest"]) Option.none =
      [[("shortname", "sleeptest")], [("shortname", "failtest")]] :=
  (C4_bare_param_sets envImportErr jsample ["sleeptest", "failtest"] rfl).1

/-- Helper: the Python append-loop over identifiers (append all filtered
dicts, or the bare set when there are none) equals concatenating each
identifier's block. -/
theorem mux_foldl_eq_flatMap (env : Env) (mfile : String) (us : List String)
    (init : List ParamSet) :
    us.foldl
      (fun acc url =>
        if (env.only_dicts mfile url).isEmpty
        then acc ++ [[("shortname", url)]]
        else acc ++ env.only_dicts mfile url)
      init =
    init ++ us.flatMap
      (fun url =>
        if (env.only_dicts mfile url).isEmpty
        then [[("shortname", url)]]
        else env.only_dicts mfile url) := by
  induction us generalizing init with
  | nil => simp
  | cons u rest ih =>
    simp only [List.foldl_cons, List.flatMap_cons, ih]
    by_cases hd : (env.only_dicts mfile u).isEmpty <;>
      simp only [hd, if_true, if_false, List.append_assoc, Bool.false_eq_true,
        ite_false, ite_true]

/-- C5.  With a multiplex source and identifiers, the produced sequence
is the concatenation, in identifier order, of per-identifier blocks: all
of that identifier's filtered variants in the engine's order when there
are any, and exactly the one bare set `{'shortname': identifier}` when
the engine yields none.  Blocks never merge across identifiers, and since
every block is nonempty no identifier is dropped: the output is at least
as long as the identifier list. -/
theorem C5_multiplex_expansion (env : Env) (j : Job) (us : List String)
    (m : String) :
    build_params_list env j (UrlsArg.list us) (some m) =
      us.flatMap (fun url =>
        if (env.only_dicts (env.abspath m) url).isEmpty
        then [[("shortname", url)]]
        else env.only_dicts (env.abspath m) url) ∧
    us.length ≤ (build_params_list env j (UrlsArg.list us) (some m)).length := by
  have heq : build_params_list env j (UrlsArg.list us) (some m) =
      us.flatMap (fun url =>
        if (env.only_dicts (env.abspath m) url).isEmpty
        then [[("shortname", url)]]
        else env.only_dicts (env.abspath m) url) := by
    simp only [build_params_list, normalize_urls, normalize_mux]
    rw [mux_foldl_eq_flatMap]
    simp
  refine ⟨heq, ?_⟩
  rw [heq]
  clear heq
  induction us with
  | nil => simp
  | cons u rest ih =>
    simp only [List.flatMap_cons, List.length_append, List.length_cons]
    have h1 : 1 ≤ (if (env.only_dicts (env.abspath m) u).isEmpty
        then [[("shortname", u)]] else env.only_dicts (env.abspath m) u).length := by
      by_cases hd : (env.only_dicts (env.abspath m) u).isEmpty
      · simp [hd]
      · cases hl : env.only_dicts (env.abspath m) u with
        | nil => rw [hl] at hd; simp at hd
        | cons d ds => simp [hd, hl]
    omega

/-- Helper: when every test in the list resolves and runs without an
exception (with `f` giving each one's finished instance and final
status), the runner loop emits the run / check event pair for each
parameter set in input order and collects the names of the non-passing
instances in input order. -/
theorem runner_loop_events (env : Env) (j : Job) (pl : List ParamSet)
    (f : ParamSet → TestInstance × String)
    (hf : ∀ p ∈ pl, run_test env j p = Except.ok (f p)) :
    runner_loop env j pl =
      (pl.flatMap (fun p =>
         [Event.runTest (f p).1.name, Event.checkTest (f p).1.name (f p).2]),
       Except.ok (pl.filterMap (fun p =>
         if env.mapping (f p).2 then Option.none else some (f p).1.name))) := by
  induction pl with
  | nil => rfl
  | cons p rest ih =>
    have hp := hf p (by simp)
    have hrest := ih (fun q hq => hf q (by simp [hq]))
    rcases hfp : f p with ⟨ti, st⟩
    rw [hfp] at hp
    simp only [runner_loop, hp, hrest, hfp, List.flatMap_cons,
      List.filterMap_cons]
    by_cases hm : env.mapping st <;> simp [hm, Except.map]

/-- C6.  The default execution loop calls `start_tests` before any test;
then, for each parameter set in input order, resolves and runs the test
and notifies the collaborator via `check_test` with the finished
instance (test N+1's run event strictly follows test N's in the trace,
and every parameter set appears, so no failure aborts the loop); the
failures list holds exactly the names of the instances whose status maps
to not passing, in order; and `end_tests` is called after the last
test. -/
theorem C6_runner_protocol (env : Env) (j : Job) (pl : List ParamSet)
    (f : ParamSet → TestInstance × String)
    (hf : ∀ p ∈ pl, run_test env j p = Except.ok (f p)) :
    test_runner env j pl =
      (Event.startTests ::
         pl.flatMap (fun p =>
           [Event.runTest (f p).1.name, Event.checkTest (f p).1.name (f p).2])
         ++ [Event.endTests],
       Except.ok (pl.filterMap (fun p =>
         if env.mapping (f p).2 then Option.none else some (f p).1.name))) := by
  simp [test_runner, runner_loop_events env j pl f hf]

/-- An environment for the witness run: no filesystem paths, every
module missing (so each test resolves to the Missing-test variant), and
instances named `failtest` finish with status `FAIL` while the rest
finish with `PASS`. -/
def envRun : Env :=
  { envImportErr with
      runStatus := fun ti => if ti.name = "failtest" then "FAIL" else "PASS" }

/-- The finished instance and final status of each witness parameter
set under `envRun`. -/
def fRun : ParamSet → TestInstance × String := fun p =>
  let nm := urlOf ((List.lookup "shortname" p).getD "")
  (TestInstance.loaded TestClass.missingTest nm jsample.debugdir p
     jsample.unique_id,
   if nm = "failtest" then "FAIL" else "PASS")

/-- C6, witness: a two-test run (one passing, one failing) produces the
full lifecycle trace and the single failing name. -/
theorem C6_runner_protocol_witness :
    test_runner envRun jsample
        [[("shortname", "sleeptest")], [("shortname", "failtest")]] =
      ([Event.startTests,
        Event.runTest "sleeptest", Event.checkTest "sleeptest" "PASS",
        Event.runTest "failtest", Event.checkTest "failtest" "FAIL",
        Event.endTests],
       Except.ok ["failtest"]) := by
  have h := C6_runner_protocol envRun jsample
    [[("shortname", "sleeptest")], [("shortname", "failtest")]] fRun
    (by
      intro p hp
      simp only [List.mem_cons, List.not_mem_nil, or_false] at hp
      rcases hp with rfl | rfl <;> rfl)
  exact h

/-- C10.  With no identifiers and no multiplex source, the parameter-set
list is empty, yet the default loop still calls `start_tests` and
`end_tests` and returns an empty failures list; the run returns `ALL_OK`
and the job status ends as `PASS`. -/
theorem C10_empty_run (env : Env) (freshUuid logsDir : String) :
    build_params_list env (Job.init freshUuid logsDir Option.none)
        UrlsArg.none Option.none = [] ∧
    test_runner env (Job.init freshUuid logsDir Option.none) [] =
      ([Event.startTests, Event.endTests], Except.ok []) ∧
    Job._run env (Job.init freshUuid logsDir Option.none)
        UrlsArg.none Option.none =
      ({ Job.init freshUuid logsDir Option.none with status := "PASS" },
       [Event.startTests, Event.endTests], Except.ok ExitCode.ALL_OK) := by
  exact ⟨rfl, rfl, rfl⟩

end Avocado
